import Mathlib

/-!
Shallow embedding of the webcake-data client library (QueryBuilder.js,
DBModel.js, DBConnection.js) and verification of its specification.

JavaScript objects are modelled as association lists whose keys are unique by
construction (property assignment `obj[k] = v` updates in place or appends,
matching JS insertion-order semantics).  JSON.stringify on such objects is
injective and order-preserving, so a serialized wire field is modelled by the
structured value itself, and presence/absence of a key in the outgoing
request object is modelled with `Option`.
-/

namespace WebCake

/-- Scalar JavaScript values used as filter operands and document fields. -/
inductive Scalar where
  | snull
  | sbool (b : Bool)
  | sint (n : Int)
  | sstr (s : String)
deriving DecidableEq, Repr

/-- Predicate and select values: a scalar or a JS array of scalars (used by
the array-carrying operators such as in, nin, between). -/
inductive Value where
  | scalar (s : Scalar)
  | vlist (xs : List Scalar)
deriving DecidableEq, Repr

/-- JS truthiness of a scalar: null, false, 0 and the empty string are falsy. -/
def Scalar.truthy : Scalar → Bool
  | .snull => false
  | .sbool b => b
  | .sint n => n != 0
  | .sstr s => s != ""

/-- JS truthiness of a value; arrays are objects and therefore always truthy. -/
def Value.truthy : Value → Bool
  | .scalar s => s.truthy
  | .vlist _ => true

/-- JS property assignment on an insertion-ordered object: an existing key is
updated in place, a new key is appended at the end. -/
def setKey : List (String × α) → String → α → List (String × α)
  | [], k, v => [(k, v)]
  | (k', v') :: rest, k, v =>
      if k' = k then (k, v) :: rest else (k', v') :: setKey rest k v

/-- JS property lookup on an object. -/
def getKey : List (String × α) → String → Option α
  | [], _ => none
  | (k', v') :: rest, k => if k' = k then some v' else getKey rest k

/-- Lookup inside an optional object (e.g. a wire field that may be absent). -/
def getKeyOpt (o : Option (List (String × α))) (k : String) : Option α :=
  match o with
  | none => none
  | some xs => getKey xs k

/-- A per-field filter predicate: a JS object mapping operator tags such as
"$eq", "$gte" to operand values.  The builder always stores singletons. -/
abbrev Pred := List (String × Value)

/-- One join directive as stored in `populateFields` (QueryBuilder.js lines
211-221).  `field`, `table`, `referenceField` stay `undefined` (here `none`)
when the caller omitted them: the code performs no validation.  The JS
properties `where` and `sort` are named `whereExpr` and `sortExpr` here. -/
structure PopulateDirective where
  field : Option Scalar
  table : Option Scalar
  referenceField : Option Scalar
  select : Scalar
  whereExpr : Scalar
  sortExpr : Scalar
  limit : Option Int
  skip : Int
  justOne : Bool
deriving DecidableEq, Repr

/-- The caller-supplied config object of `populate`.  `none` models an absent
(or `undefined`) property, for which the destructuring defaults of
QueryBuilder.js lines 200-210 apply. -/
structure PopulateConfig where
  field : Option Scalar
  table : Option Scalar
  referenceField : Option Scalar
  select : Option Scalar
  whereExpr : Option Scalar
  sortExpr : Option Scalar
  limit : Option Int
  skip : Option Int
  justOne : Option Bool
deriving DecidableEq, Repr

/-- The directive built from a config by the destructuring defaults:
select/where/sort default to "", limit to null, skip to 0, justOne to false;
the three required sub-fields are passed through unchecked. -/
def PopulateConfig.toDirective (cfg : PopulateConfig) : PopulateDirective :=
  { field := cfg.field
    table := cfg.table
    referenceField := cfg.referenceField
    select := cfg.select.getD (Scalar.sstr "")
    whereExpr := cfg.whereExpr.getD (Scalar.sstr "")
    sortExpr := cfg.sortExpr.getD (Scalar.sstr "")
    limit := cfg.limit
    skip := cfg.skip.getD 0
    justOne := cfg.justOne.getD false }

/-- Builder state, from the constructor of QueryBuilder.js lines 6-15 (the
`apiClient` reference is the transport boundary and carries no query state). -/
structure QueryBuilder where
  collectionName : String
  filters : List (String × Pred)
  sortOptions : List (String × Int)
  limitValue : Option Int
  skipValue : Int
  selectFields : Option Value
  populateFields : List PopulateDirective
deriving DecidableEq, Repr

/-- Fresh builder: `new QueryBuilder(collectionName, apiClient)`. -/
def QueryBuilder.new (c : String) : QueryBuilder :=
  { collectionName := c
    filters := []
    sortOptions := []
    limitValue := none
    skipValue := 0
    selectFields := none
    populateFields := [] }

/-- Two-argument `where(field, value)`: equality predicate (line 27). -/
def QueryBuilder.where2 (b : QueryBuilder) (field : String) (value : Value) :
    QueryBuilder :=
  { b with filters := setKey b.filters field [("$eq", value)] }

/-- Three-argument `where(field, operator, value)`: the operator string is
used verbatim as the predicate key (line 30). -/
def QueryBuilder.where3 (b : QueryBuilder) (field op : String) (value : Value) :
    QueryBuilder :=
  { b with filters := setKey b.filters field [(op, value)] }

/-- Shorthand `eq` (lines 41-44). -/
def QueryBuilder.eq (b : QueryBuilder) (field : String) (value : Value) :
    QueryBuilder :=
  { b with filters := setKey b.filters field [("$eq", value)] }

/-- Shorthand `gt` (lines 52-55). -/
def QueryBuilder.gt (b : QueryBuilder) (field : String) (value : Value) :
    QueryBuilder :=
  { b with filters := setKey b.filters field [("$gt", value)] }

/-- Shorthand `gte` (lines 63-66). -/
def QueryBuilder.gte (b : QueryBuilder) (field : String) (value : Value) :
    QueryBuilder :=
  { b with filters := setKey b.filters field [("$gte", value)] }

/-- Shorthand `lt` (lines 74-77). -/
def QueryBuilder.lt (b : QueryBuilder) (field : String) (value : Value) :
    QueryBuilder :=
  { b with filters := setKey b.filters field [("$lt", value)] }

/-- Shorthand `lte` (lines 85-88). -/
def QueryBuilder.lte (b : QueryBuilder) (field : String) (value : Value) :
    QueryBuilder :=
  { b with filters := setKey b.filters field [("$lte", value)] }

/-- Shorthand `in` (lines 96-99); named `inOp` because `in` is reserved. -/
def QueryBuilder.inOp (b : QueryBuilder) (field : String) (values : List Scalar) :
    QueryBuilder :=
  { b with filters := setKey b.filters field [("$in", Value.vlist values)] }

/-- Shorthand `nin` (lines 107-110). -/
def QueryBuilder.nin (b : QueryBuilder) (field : String) (values : List Scalar) :
    QueryBuilder :=
  { b with filters := setKey b.filters field [("$nin", Value.vlist values)] }

/-- Shorthand `ne` (lines 118-121). -/
def QueryBuilder.ne (b : QueryBuilder) (field : String) (value : Value) :
    QueryBuilder :=
  { b with filters := setKey b.filters field [("$ne", value)] }

/-- Shorthand `between` (lines 130-133): stores the pair as a JS array. -/
def QueryBuilder.between (b : QueryBuilder) (field : String) (v1 v2 : Scalar) :
    QueryBuilder :=
  { b with filters := setKey b.filters field [("$between", Value.vlist [v1, v2])] }

/-- Shorthand `like` (lines 141-144). -/
def QueryBuilder.like (b : QueryBuilder) (field : String) (pattern : Value) :
    QueryBuilder :=
  { b with filters := setKey b.filters field [("$like", pattern)] }

/-- Replace the whole sort specification (lines 151-154). -/
def QueryBuilder.sort (b : QueryBuilder) (sortObj : List (String × Int)) :
    QueryBuilder :=
  { b with sortOptions := sortObj }

/-- Set the limit (lines 161-164). -/
def QueryBuilder.limit (b : QueryBuilder) (n : Int) : QueryBuilder :=
  { b with limitValue := some n }

/-- Set the skip (lines 171-174). -/
def QueryBuilder.skip (b : QueryBuilder) (n : Int) : QueryBuilder :=
  { b with skipValue := n }

/-- Replace the projection (lines 181-184). -/
def QueryBuilder.select (b : QueryBuilder) (fields : Value) : QueryBuilder :=
  { b with selectFields := some fields }

/-- Append a join directive (lines 200-223).  The implementation validates
nothing: the directive, with any missing required sub-fields left undefined,
is concatenated to the accumulated list unconditionally. -/
def QueryBuilder.populate (b : QueryBuilder) (cfg : PopulateConfig) :
    QueryBuilder :=
  { b with populateFields := b.populateFields ++ [cfg.toDirective] }

/-- The query-parameter object assembled by `exec()` (lines 229-240) before
it is handed to the transport's `query`. -/
structure QueryParams where
  filters : List (String × Pred)
  sort : List (String × Int)
  limit : Option Int
  skip : Int
  select : Option Value
  populate : List PopulateDirective
deriving DecidableEq, Repr

/-- `exec()`'s snapshot of the builder state (lines 230-237). -/
def QueryBuilder.toQueryParams (b : QueryBuilder) : QueryParams :=
  { filters := b.filters
    sort := b.sortOptions
    limit := b.limitValue
    skip := b.skipValue
    select := b.selectFields
    populate := b.populateFields }

/-- The outgoing URL-parameter object of a query request.  A `none` component
means `_buildQueryParams` did not put that key into the object at all. -/
structure WireParams where
  filters : Option (List (String × Pred))
  sort : Option (List (String × Int))
  limit : Option Int
  skip : Option Int
  select : Option Value
  populate : Option (List PopulateDirective)
deriving DecidableEq, Repr

/-- DBConnection.js `_buildQueryParams` (lines 328-356): each part is added
only when present and JS-truthy (non-empty object, truthy number, truthy
select value, non-empty populate list). -/
def DBConnection.buildQueryParams (qp : QueryParams) : WireParams :=
  { filters := if qp.filters = [] then none else some qp.filters
    sort := if qp.sort = [] then none else some qp.sort
    limit := match qp.limit with
      | none => none
      | some n => if n = 0 then none else some n
    skip := if qp.skip = 0 then none else some qp.skip
    select := match qp.select with
      | none => none
      | some v => if v.truthy then some v else none
    populate := if qp.populate = [] then none else some qp.populate }

/-- The serialized query description a builder produces at execution time
(exec's snapshot passed through `_buildQueryParams`). -/
def QueryBuilder.serialize (b : QueryBuilder) : WireParams :=
  DBConnection.buildQueryParams b.toQueryParams

/-- DBModel.js `find` (lines 38-47): a fresh builder to which every entry of
the given filter map is applied with two-argument `where`. -/
def DBModel.find (c : String) (filters : List (String × Value)) : QueryBuilder :=
  filters.foldl (fun q kv => q.where2 kv.1 kv.2) (QueryBuilder.new c)

/-- One predicate-setting call of the builder, with its arguments, used to
quantify over the eleven filter operations uniformly. -/
inductive FilterOp where
  | where2 (v : Value)
  | where3 (op : String) (v : Value)
  | eqOp (v : Value)
  | gtOp (v : Value)
  | gteOp (v : Value)
  | ltOp (v : Value)
  | lteOp (v : Value)
  | inOp (vs : List Scalar)
  | ninOp (vs : List Scalar)
  | neOp (v : Value)
  | betweenOp (v1 v2 : Scalar)
  | likeOp (p : Value)
deriving DecidableEq, Repr

/-- Dispatch a predicate-setting call to the corresponding builder method. -/
def QueryBuilder.applyFilterOp (b : QueryBuilder) (f : String) :
    FilterOp → QueryBuilder
  | .where2 v => b.where2 f v
  | .where3 op v => b.where3 f op v
  | .eqOp v => b.eq f v
  | .gtOp v => b.gt f v
  | .gteOp v => b.gte f v
  | .ltOp v => b.lt f v
  | .lteOp v => b.lte f v
  | .inOp vs => b.inOp f vs
  | .ninOp vs => b.nin f vs
  | .neOp v => b.ne f v
  | .betweenOp v1 v2 => b.between f v1 v2
  | .likeOp p => b.like f p

/-- The predicate object each call stores for its field. -/
def FilterOp.pred : FilterOp → Pred
  | .where2 v => [("$eq", v)]
  | .where3 op v => [(op, v)]
  | .eqOp v => [("$eq", v)]
  | .gtOp v => [("$gt", v)]
  | .gteOp v => [("$gte", v)]
  | .ltOp v => [("$lt", v)]
  | .lteOp v => [("$lte", v)]
  | .inOp vs => [("$in", Value.vlist vs)]
  | .ninOp vs => [("$nin", Value.vlist vs)]
  | .neOp v => [("$ne", v)]
  | .betweenOp v1 v2 => [("$between", Value.vlist [v1, v2])]
  | .likeOp p => [("$like", p)]

/-- A record (document object) as returned by the transport. -/
abbrev Record := List (String × Scalar)

/-- A JavaScript result value as seen by `findOne`: null, a primitive, or a
document object. -/
inductive Document where
  | dnull
  | dbool (b : Bool)
  | dint (n : Int)
  | dstr (s : String)
  | dobj (fields : Record)
deriving DecidableEq, Repr

/-- JS truthiness of a result value; objects are always truthy. -/
def Document.truthy : Document → Bool
  | .dnull => false
  | .dbool b => b
  | .dint n => n != 0
  | .dstr s => s != ""
  | .dobj _ => true

/-- DBModel.js `findOne` result shaping (line 57): `results[0] || null`.
On an empty list `results[0]` is `undefined`, and `undefined || null` is
`null`; on a non-empty list a truthy head is returned as-is, a falsy head
yields `null`.  `findById(id)` (lines 65-67) delegates to
`findOne({id})` and shapes its result through this same expression. -/
def DBModel.findOneShape (results : List Document) : Document :=
  match results with
  | [] => Document.dnull
  | x :: _ => if x.truthy then x else Document.dnull

/-- Result object of `updateOne`/`updateMany` (DBModel.js lines 79-83 and
125-129). -/
structure UpdateResult where
  acknowledged : Bool
  matchedCount : Nat
  modifiedCount : Nat
deriving DecidableEq, Repr

/-- Result object of `deleteOne`/`deleteMany` (DBModel.js lines 140-143 and
172-175). -/
structure DeleteResult where
  acknowledged : Bool
  deletedCount : Nat
deriving DecidableEq, Repr

/-- DBModel.js `updateOne` result shaping (lines 79-83), applied to the
affected-record list the transport resolved with. -/
def DBModel.updateOneShape (res : List Record) : UpdateResult :=
  { acknowledged := true, matchedCount := res.length, modifiedCount := res.length }

/-- DBModel.js `updateMany` result shaping (lines 125-129). -/
def DBModel.updateManyShape (res : List Record) : UpdateResult :=
  { acknowledged := true, matchedCount := res.length, modifiedCount := res.length }

/-- DBModel.js `deleteOne` result shaping (lines 140-143). -/
def DBModel.deleteOneShape (res : List Record) : DeleteResult :=
  { acknowledged := true, deletedCount := res.length }

/-- DBModel.js `deleteMany` result shaping (lines 172-175). -/
def DBModel.deleteManyShape (res : List Record) : DeleteResult :=
  { acknowledged := true, deletedCount := res.length }

/-- The response envelope parsed from the transport:
`{success, data, message}`.  The payload type is a parameter because the
JavaScript is untyped and `cleanFetch` never inspects `data`. -/
structure Envelope (α : Type) where
  success : Bool
  data : α
  message : String

/-- DBConnection.js `cleanFetch` (lines 364-375): unwrap `data` when
`success` holds, otherwise fail with the envelope's `message` verbatim. -/
def DBConnection.cleanFetch (env : Envelope α) : Except String α :=
  if env.success then Except.ok env.data else Except.error env.message

/-- Response handling of `insertOne` (line 63): routed through `cleanFetch`. -/
def DBConnection.insertOneResp (env : Envelope α) : Except String α :=
  DBConnection.cleanFetch env

/-- Response handling of `insertMany` (line 87). -/
def DBConnection.insertManyResp (env : Envelope α) : Except String α :=
  DBConnection.cleanFetch env

/-- Response handling of `query` (line 111). -/
def DBConnection.queryResp (env : Envelope α) : Except String α :=
  DBConnection.cleanFetch env

/-- Response handling of `updateById` (line 136). -/
def DBConnection.updateByIdResp (env : Envelope α) : Except String α :=
  DBConnection.cleanFetch env

/-- Response handling of `updateOne` (line 165). -/
def DBConnection.updateOneResp (env : Envelope α) : Except String α :=
  DBConnection.cleanFetch env

/-- Response handling of `updateMany` (line 193). -/
def DBConnection.updateManyResp (env : Envelope α) : Except String α :=
  DBConnection.cleanFetch env

/-- Response handling of `deleteById` (line 216). -/
def DBConnection.deleteByIdResp (env : Envelope α) : Except String α :=
  DBConnection.cleanFetch env

/-- Response handling of `deleteOne` (line 243). -/
def DBConnection.deleteOneResp (env : Envelope α) : Except String α :=
  DBConnection.cleanFetch env

/-- Response handling of `deleteMany` (line 267). -/
def DBConnection.deleteManyResp (env : Envelope α) : Except String α :=
  DBConnection.cleanFetch env

/-- Response handling of `count` (line 293). -/
def DBConnection.countResp (env : Envelope α) : Except String α :=
  DBConnection.cleanFetch env

/-- Response handling of `exists` (line 319). -/
def DBConnection.existsResp (env : Envelope α) : Except String α :=
  DBConnection.cleanFetch env

/-- One `{field_name, field_value}` pair of a flattened write document. -/
structure FieldPair where
  field_name : String
  field_value : Scalar
deriving DecidableEq, Repr

/-- A caller-level filter map as passed to the connection's write methods. -/
abbrev FilterMap := List (String × Scalar)

/-- Request body of the filtered update endpoints.  A `none` limit means the
body object literal has no `limit` key at all. -/
structure UpdateBody where
  filters : FilterMap
  fields : List FieldPair
  limit : Option Int
deriving DecidableEq, Repr

/-- Request body of the filtered delete endpoints. -/
structure DeleteBody where
  filters : FilterMap
  limit : Option Int
deriving DecidableEq, Repr

/-- DBConnection.js `updateOne` body (lines 151-155): `{filters, fields,
limit: 1}`. -/
def DBConnection.updateOneBody (filters : FilterMap) (fields : List FieldPair) :
    UpdateBody :=
  { filters := filters, fields := fields, limit := some 1 }

/-- DBConnection.js `updateMany` body (lines 180-183): `{filters, fields}`,
no limit key. -/
def DBConnection.updateManyBody (filters : FilterMap) (fields : List FieldPair) :
    UpdateBody :=
  { filters := filters, fields := fields, limit := none }

/-- DBConnection.js `deleteOne` body (lines 230-233): `{filters, limit: 1}`. -/
def DBConnection.deleteOneBody (filters : FilterMap) : DeleteBody :=
  { filters := filters, limit := some 1 }

/-- DBConnection.js `deleteMany` body (line 257): `{filters}`, no limit key. -/
def DBConnection.deleteManyBody (filters : FilterMap) : DeleteBody :=
  { filters := filters, limit := none }

/-! Helper lemmas about JS object assignment and lookup. -/

theorem getKey_setKey_self (xs : List (String × α)) (k : String) (v : α) :
    getKey (setKey xs k v) k = some v := by
  induction xs with
  | nil => simp [setKey, getKey]
  | cons p rest ih =>
      obtain ⟨k', v'⟩ := p
      by_cases h : k' = k
      · simp [setKey, getKey, h]
      · simp [setKey, getKey, h, ih]

theorem setKey_ne_nil (xs : List (String × α)) (k : String) (v : α) :
    setKey xs k v ≠ [] := by
  cases xs with
  | nil => simp [setKey]
  | cons p rest =>
      obtain ⟨k', v'⟩ := p
      simp only [setKey]
      split <;> simp

theorem applyFilterOp_filters (b : QueryBuilder) (f : String) (o : FilterOp) :
    (b.applyFilterOp f o).filters = setKey b.filters f o.pred := by
  cases o <;> rfl

/-- Claim C1, counterexample: a `populate` call whose config omits the
required sub-field `table` does not fail and does not leave the accumulated
list unchanged — the directive is appended anyway (the list of a fresh
builder grows from length 0 to length 1), and no ConfigurationError exists
anywhere in the code. -/
theorem populate_missing_table_still_appends :
    (((QueryBuilder.new "posts").populate
      { field := some (Scalar.sstr "author"), table := none,
        referenceField := some (Scalar.sstr "id"), select := none,
        whereExpr := none, sortExpr := none, limit := none, skip := none,
        justOne := none }).populateFields).length = 1 := rfl

/-- Claim C1, amended: `populate` performs no validation at all.  Every call,
whether or not the required sub-fields `field`, `table`, `referenceField`
are present, appends exactly one directive (missing sub-fields recorded as
absent) at the end of the accumulated list: the length grows by exactly one
and the previously accumulated directives are preserved in call order.  No
ConfigurationError is ever raised. -/
theorem populate_always_appends_in_order (b : QueryBuilder)
    (cfg : PopulateConfig) :
    (b.populate cfg).populateFields = b.populateFields ++ [cfg.toDirective] ∧
    (b.populate cfg).populateFields.length = b.populateFields.length + 1 ∧
    (b.populate cfg).populateFields.take b.populateFields.length
      = b.populateFields := by
  refine ⟨rfl, by simp [QueryBuilder.populate], ?_⟩
  simp [QueryBuilder.populate, List.take_left]

/-- Claim C2: evaluating the code at the claimed input
`find().gte('age',25).lte('age',40).sort({age:-1}).limit(5).skip(10)` shows
that the serialized description carries only `{age: {$lte: 40}}` in
`filters` — the `lte` call overwrites the whole predicate the `gte` call
stored for `age`, so the two operators never coexist, contradicting the
claim (and the repository's own examples, which advertise this chain as a
range query). -/
theorem chained_gte_lte_loses_gte :
    ((((((DBModel.find "users" []).gte "age"
        (Value.scalar (Scalar.sint 25))).lte "age"
        (Value.scalar (Scalar.sint 40))).sort [("age", -1)]).limit 5).skip
        10).serialize
      = { filters := some [("age", [("$lte", Value.scalar (Scalar.sint 40))])]
          sort := some [("age", -1)]
          limit := some 5
          skip := some 10
          select := none
          populate := none } := rfl

/-- Claim C3: predicate replacement is last-write-wins.  For every builder,
field and pair of predicate-setting operations (two- and three-argument
where, eq, gt, gte, lt, lte, in, nin, ne, between, like) applied in
sequence to the same field, the serialized filters map the field to exactly
the predicate of the second operation. -/
theorem predicate_last_write_wins (b : QueryBuilder) (f : String)
    (o1 o2 : FilterOp) :
    getKeyOpt (((b.applyFilterOp f o1).applyFilterOp f o2).serialize).filters f
      = some o2.pred := by
  have h2 : ((b.applyFilterOp f o1).applyFilterOp f o2).filters
      = setKey (setKey b.filters f o1.pred) f o2.pred := by
    rw [applyFilterOp_filters, applyFilterOp_filters]
  simp only [QueryBuilder.serialize, DBConnection.buildQueryParams,
    QueryBuilder.toQueryParams]
  rw [h2, if_neg (setKey_ne_nil _ _ _)]
  simp only [getKeyOpt]
  exact getKey_setKey_self _ _ _

/-- Claim C4, counterexample: the serialized predicate common to
`where('age', 25)` and `eq('age', 25)` is `{age: {"$eq": 25}}`, not the
claimed `{age: {eq: 25}}` — the operator key carries the `$` prefix — and a
literal three-argument call `where('age', 'eq', 25)` stores the key `eq`
verbatim, producing a different predicate than the other two calls. -/
theorem eq_predicate_key_is_dollar_eq :
    getKeyOpt (((QueryBuilder.new "users").eq "age"
        (Value.scalar (Scalar.sint 25))).serialize).filters "age"
      = some [("$eq", Value.scalar (Scalar.sint 25))] ∧
    (some [("$eq", Value.scalar (Scalar.sint 25))] : Option Pred)
      ≠ some [("eq", Value.scalar (Scalar.sint 25))] ∧
    getKeyOpt (((QueryBuilder.new "users").where3 "age" "eq"
        (Value.scalar (Scalar.sint 25))).serialize).filters "age"
      = some [("eq", Value.scalar (Scalar.sint 25))] := by
  refine ⟨rfl, by decide, rfl⟩

/-- Claim C4, amended: the two-argument call `where('age', 25)`, the
three-argument call with the equality operator tag `where('age', '$eq', 25)`
and the shorthand `eq('age', 25)` all serialize to the same query
description, whose predicate for the field is `{age: {"$eq": 25}}`. -/
theorem where_arity_eq_agree :
    ((QueryBuilder.new "users").where2 "age"
        (Value.scalar (Scalar.sint 25))).serialize
      = ((QueryBuilder.new "users").where3 "age" "$eq"
        (Value.scalar (Scalar.sint 25))).serialize ∧
    ((QueryBuilder.new "users").where3 "age" "$eq"
        (Value.scalar (Scalar.sint 25))).serialize
      = ((QueryBuilder.new "users").eq "age"
        (Value.scalar (Scalar.sint 25))).serialize ∧
    getKeyOpt (((QueryBuilder.new "users").where2 "age"
        (Value.scalar (Scalar.sint 25))).serialize).filters "age"
      = some [("$eq", Value.scalar (Scalar.sint 25))] :=
  ⟨rfl, rfl, rfl⟩

/-- Claim C5: for every affected-record list the transport resolves an
update (resp. delete) with, the Model returns `{acknowledged: true,
matchedCount: n, modifiedCount: n}` (resp. `{acknowledged: true,
deletedCount: n}`) where `n` is the list's length; and the result is
derived only from that length — any two lists of equal length, whatever
their record contents, produce identical results. -/
theorem update_delete_counts_from_length (res res2 : List Record)
    (h : res.length = res2.length) :
    DBModel.updateOneShape res
      = { acknowledged := true, matchedCount := res.length,
          modifiedCount := res.length } ∧
    DBModel.updateManyShape res
      = { acknowledged := true, matchedCount := res.length,
          modifiedCount := res.length } ∧
    DBModel.deleteOneShape res
      = { acknowledged := true, deletedCount := res.length } ∧
    DBModel.deleteManyShape res
      = { acknowledged := true, deletedCount := res.length } ∧
    DBModel.updateOneShape res = DBModel.updateOneShape res2 ∧
    DBModel.updateManyShape res = DBModel.updateManyShape res2 ∧
    DBModel.deleteOneShape res = DBModel.deleteOneShape res2 ∧
    DBModel.deleteManyShape res = DBModel.deleteManyShape res2 := by
  refine ⟨rfl, rfl, rfl, rfl, ?_, ?_, ?_, ?_⟩ <;>
    simp [DBModel.updateOneShape, DBModel.updateManyShape,
      DBModel.deleteOneShape, DBModel.deleteManyShape, h]

/-- Witness for C5: two concrete three-element affected-record lists with
different record contents give the counts 3 and identical results. -/
theorem update_delete_counts_from_length_witness :
    ([[("a", Scalar.sint 1)], [], [("b", Scalar.sstr "x")]] : List Record).length
      = ([[], [("c", Scalar.sbool true)], []] : List Record).length ∧
    (DBModel.updateOneShape [[("a", Scalar.sint 1)], [], [("b", Scalar.sstr "x")]]
      = { acknowledged := true, matchedCount := 3, modifiedCount := 3 } ∧
    DBModel.updateManyShape [[("a", Scalar.sint 1)], [], [("b", Scalar.sstr "x")]]
      = { acknowledged := true, matchedCount := 3, modifiedCount := 3 } ∧
    DBModel.deleteOneShape [[("a", Scalar.sint 1)], [], [("b", Scalar.sstr "x")]]
      = { acknowledged := true, deletedCount := 3 } ∧
    DBModel.deleteManyShape [[("a", Scalar.sint 1)], [], [("b", Scalar.sstr "x")]]
      = { acknowledged := true, deletedCount := 3 } ∧
    DBModel.updateOneShape [[("a", Scalar.sint 1)], [], [("b", Scalar.sstr "x")]]
      = DBModel.updateOneShape [[], [("c", Scalar.sbool true)], []] ∧
    DBModel.updateManyShape [[("a", Scalar.sint 1)], [], [("b", Scalar.sstr "x")]]
      = DBModel.updateManyShape [[], [("c", Scalar.sbool true)], []] ∧
    DBModel.deleteOneShape [[("a", Scalar.sint 1)], [], [("b", Scalar.sstr "x")]]
      = DBModel.deleteOneShape [[], [("c", Scalar.sbool true)], []] ∧
    DBModel.deleteManyShape [[("a", Scalar.sint 1)], [], [("b", Scalar.sstr "x")]]
      = DBModel.deleteManyShape [[], [("c", Scalar.sbool true)], []]) :=
  ⟨rfl, update_delete_counts_from_length
    [[("a", Scalar.sint 1)], [], [("b", Scalar.sstr "x")]]
    [[], [("c", Scalar.sbool true)], []] rfl⟩

/-- Claim C6: a builder to which no filter, sort, limit, skip, select or
populate operation has been applied (the builder `find` returns for an
empty filter map, i.e. a fresh builder) serializes to a query description
in which every one of the keys filters, sort, limit, skip, select and
populate is absent. -/
theorem empty_builder_serializes_to_empty (c : String) :
    (DBModel.find c []).serialize
      = { filters := none, sort := none, limit := none, skip := none,
          select := none, populate := none } := rfl

/-- Claim C7: `findOne` (and `findById`, which delegates to it) shapes its
result with `results[0] || null`, a total expression that never throws: an
empty transport result list yields the explicit null marker, and a
non-empty list whose first element is a document object yields that first
document. -/
theorem findOne_empty_null_nonempty_first (results : List Document) :
    (results = [] → DBModel.findOneShape results = Document.dnull) ∧
    (∀ fields rest, results = Document.dobj fields :: rest →
      DBModel.findOneShape results = Document.dobj fields) := by
  constructor
  · rintro rfl
    rfl
  · rintro fields rest rfl
    rfl

/-- Witness for C7: the empty result list yields null; a singleton document
list yields that document. -/
theorem findOne_empty_null_nonempty_first_witness :
    DBModel.findOneShape [] = Document.dnull ∧
    DBModel.findOneShape [Document.dobj [("name", Scalar.sstr "jo")]]
      = Document.dobj [("name", Scalar.sstr "jo")] :=
  ⟨(findOne_empty_null_nonempty_first []).1 rfl,
   (findOne_empty_null_nonempty_first
      [Document.dobj [("name", Scalar.sstr "jo")]]).2
      [("name", Scalar.sstr "jo")] [] rfl⟩

/-- Claim C8: every transport-touching operation of the connection routes
its parsed response through `cleanFetch`, so uniformly: a response envelope
with `success = true` yields exactly `data`, and one with `success = false`
fails with the envelope's `message` verbatim. -/
theorem envelope_unwrap_or_fail_uniform (α : Type) (env : Envelope α) :
    (env.success = true →
      DBConnection.insertOneResp env = Except.ok env.data ∧
      DBConnection.insertManyResp env = Except.ok env.data ∧
      DBConnection.queryResp env = Except.ok env.data ∧
      DBConnection.updateByIdResp env = Except.ok env.data ∧
      DBConnection.updateOneResp env = Except.ok env.data ∧
      DBConnection.updateManyResp env = Except.ok env.data ∧
      DBConnection.deleteByIdResp env = Except.ok env.data ∧
      DBConnection.deleteOneResp env = Except.ok env.data ∧
      DBConnection.deleteManyResp env = Except.ok env.data ∧
      DBConnection.countResp env = Except.ok env.data ∧
      DBConnection.existsResp env = Except.ok env.data) ∧
    (env.success = false →
      DBConnection.insertOneResp env = Except.error env.message ∧
      DBConnection.insertManyResp env = Except.error env.message ∧
      DBConnection.queryResp env = Except.error env.message ∧
      DBConnection.updateByIdResp env = Except.error env.message ∧
      DBConnection.updateOneResp env = Except.error env.message ∧
      DBConnection.updateManyResp env = Except.error env.message ∧
      DBConnection.deleteByIdResp env = Except.error env.message ∧
      DBConnection.deleteOneResp env = Except.error env.message ∧
      DBConnection.deleteManyResp env = Except.error env.message ∧
      DBConnection.countResp env = Except.error env.message ∧
      DBConnection.existsResp env = Except.error env.message) := by
  constructor <;> intro h <;>
    simp [DBConnection.insertOneResp, DBConnection.insertManyResp,
      DBConnection.queryResp, DBConnection.updateByIdResp,
      DBConnection.updateOneResp, DBConnection.updateManyResp,
      DBConnection.deleteByIdResp, DBConnection.deleteOneResp,
      DBConnection.deleteManyResp, DBConnection.countResp,
      DBConnection.existsResp, DBConnection.cleanFetch, h]

/-- Witness for C8: a concrete successful envelope unwraps to its data
through every operation, and a concrete failed envelope fails with its
message through every operation. -/
theorem envelope_unwrap_or_fail_uniform_witness :
    (DBConnection.insertOneResp (Envelope.mk true (7 : Nat) "m")
        = Except.ok 7 ∧
      DBConnection.insertManyResp (Envelope.mk true (7 : Nat) "m")
        = Except.ok 7 ∧
      DBConnection.queryResp (Envelope.mk true (7 : Nat) "m")
        = Except.ok 7 ∧
      DBConnection.updateByIdResp (Envelope.mk true (7 : Nat) "m")
        = Except.ok 7 ∧
      DBConnection.updateOneResp (Envelope.mk true (7 : Nat) "m")
        = Except.ok 7 ∧
      DBConnection.updateManyResp (Envelope.mk true (7 : Nat) "m")
        = Except.ok 7 ∧
      DBConnection.deleteByIdResp (Envelope.mk true (7 : Nat) "m")
        = Except.ok 7 ∧
      DBConnection.deleteOneResp (Envelope.mk true (7 : Nat) "m")
        = Except.ok 7 ∧
      DBConnection.deleteManyResp (Envelope.mk true (7 : Nat) "m")
        = Except.ok 7 ∧
      DBConnection.countResp (Envelope.mk true (7 : Nat) "m")
        = Except.ok 7 ∧
      DBConnection.existsResp (Envelope.mk true (7 : Nat) "m")
        = Except.ok 7) ∧
    (DBConnection.insertOneResp (Envelope.mk false (0 : Nat) "bad")
        = Except.error "bad" ∧
      DBConnection.insertManyResp (Envelope.mk false (0 : Nat) "bad")
        = Except.error "bad" ∧
      DBConnection.queryResp (Envelope.mk false (0 : Nat) "bad")
        = Except.error "bad" ∧
      DBConnection.updateByIdResp (Envelope.mk false (0 : Nat) "bad")
        = Except.error "bad" ∧
      DBConnection.updateOneResp (Envelope.mk false (0 : Nat) "bad")
        = Except.error "bad" ∧
      DBConnection.updateManyResp (Envelope.mk false (0 : Nat) "bad")
        = Except.error "bad" ∧
      DBConnection.deleteByIdResp (Envelope.mk false (0 : Nat) "bad")
        = Except.error "bad" ∧
      DBConnection.deleteOneResp (Envelope.mk false (0 : Nat) "bad")
        = Except.error "bad" ∧
      DBConnection.deleteManyResp (Envelope.mk false (0 : Nat) "bad")
        = Except.error "bad" ∧
      DBConnection.countResp (Envelope.mk false (0 : Nat) "bad")
        = Except.error "bad" ∧
      DBConnection.existsResp (Envelope.mk false (0 : Nat) "bad")
        = Except.error "bad") :=
  ⟨(envelope_unwrap_or_fail_uniform Nat (Envelope.mk true 7 "m")).1 rfl,
   (envelope_unwrap_or_fail_uniform Nat (Envelope.mk false 0 "bad")).2 rfl⟩

/-- Claim C9: every `updateOne` and `deleteOne` request body carries
`limit: 1` alongside the caller's filters (and, for updates, the flattened
fields), while every `updateMany` and `deleteMany` request body carries the
filters but no `limit` key at all. -/
theorem write_bodies_limit_one_presence (f : FilterMap)
    (fl : List FieldPair) :
    (DBConnection.updateOneBody f fl).limit = some 1 ∧
    (DBConnection.updateOneBody f fl).filters = f ∧
    (DBConnection.updateOneBody f fl).fields = fl ∧
    (DBConnection.updateManyBody f fl).limit = none ∧
    (DBConnection.updateManyBody f fl).filters = f ∧
    (DBConnection.updateManyBody f fl).fields = fl ∧
    (DBConnection.deleteOneBody f).limit = some 1 ∧
    (DBConnection.deleteOneBody f).filters = f ∧
    (DBConnection.deleteManyBody f).limit = none ∧
    (DBConnection.deleteManyBody f).filters = f :=
  ⟨rfl, rfl, rfl, rfl, rfl, rfl, rfl, rfl, rfl, rfl⟩

/-- Claim C10: zero-valued pagination is indistinguishable on the wire from
unset pagination.  For every builder, after `skip(n)` the serialized
description carries a skip key exactly when `n` is nonzero, after
`limit(n)` it carries a limit key exactly when `n` is nonzero, a builder
whose limit was never set carries no limit key, and an explicit `skip(0)`
serializes its skip part exactly like a fresh builder's. -/
theorem zero_pagination_elided (b : QueryBuilder) (n : Int) :
    ((b.skip n).serialize).skip = (if n = 0 then none else some n) ∧
    ((b.limit n).serialize).limit = (if n = 0 then none else some n) ∧
    (({ b with limitValue := none } : QueryBuilder).serialize).limit = none ∧
    ((b.skip 0).serialize).skip
      = ((QueryBuilder.new b.collectionName).serialize).skip :=
  ⟨rfl, rfl, rfl, rfl⟩

end WebCake
